import Mathlib

/-
  Formal model of the FinAnalyst ratio engine.

  The repository computes financial ratios in two styles:
  * dict-based classes (new_profitable.py, liquidity_ratio.py, solvency_ratio.py,
    efficiency_ratio.py) working on the `{year: {line: value-or-None}}` dictionaries
    produced by financial_data_utils.get_income_statement / get_balance_sheet;
  * pandas scripts (liquidity_ratios.py, profitability_ratios.py, solvency_ratios.py,
    efficiency_ratios.py, valuation_ratios.py, market_performance_ratios.py) working
    on transposed DataFrames with dates as index.

  Machine floats are modelled by exact rationals extended with the IEEE special
  values nan / +inf / -inf that numpy produces on division by zero; this keeps the
  arithmetic the code performs exact while preserving the undefined/infinite
  outcomes the claims are about.
-/

namespace FinAnalyst

/-- A pandas/numpy float cell: a rational number or one of the IEEE special
values that numpy arithmetic produces (no exception is raised by numpy on
division by zero; plain-Python float division by zero raises instead and is
modelled by `Except` where it can occur). -/
inductive Pval where
  | nan : Pval
  | pinf : Pval
  | ninf : Pval
  | num : ℚ → Pval
deriving DecidableEq, Repr

namespace Pval

/-- numpy addition on float cells. -/
def add : Pval → Pval → Pval
  | nan, _ => nan
  | _, nan => nan
  | pinf, ninf => nan
  | ninf, pinf => nan
  | pinf, _ => pinf
  | _, pinf => pinf
  | ninf, _ => ninf
  | _, ninf => ninf
  | num a, num b => num (a + b)

/-- numpy subtraction on float cells. -/
def sub : Pval → Pval → Pval
  | nan, _ => nan
  | _, nan => nan
  | pinf, pinf => nan
  | ninf, ninf => nan
  | pinf, _ => pinf
  | ninf, _ => ninf
  | num _, pinf => ninf
  | num _, ninf => pinf
  | num a, num b => num (a - b)

/-- numpy multiplication on float cells. -/
def mul : Pval → Pval → Pval
  | nan, _ => nan
  | _, nan => nan
  | pinf, pinf => pinf
  | pinf, ninf => ninf
  | ninf, pinf => ninf
  | ninf, ninf => pinf
  | pinf, num b => if 0 < b then pinf else if b < 0 then ninf else nan
  | num a, pinf => if 0 < a then pinf else if a < 0 then ninf else nan
  | ninf, num b => if 0 < b then ninf else if b < 0 then pinf else nan
  | num a, ninf => if 0 < a then ninf else if a < 0 then pinf else nan
  | num a, num b => num (a * b)

/-- numpy division on float cells: a nonzero numerator over a zero denominator
gives a signed infinity, 0/0 gives nan, and nan propagates; no exception. -/
def div : Pval → Pval → Pval
  | nan, _ => nan
  | _, nan => nan
  | pinf, pinf => nan
  | pinf, ninf => nan
  | ninf, pinf => nan
  | ninf, ninf => nan
  | pinf, num b => if b < 0 then ninf else pinf
  | ninf, num b => if b < 0 then pinf else ninf
  | num _, pinf => num 0
  | num _, ninf => num 0
  | num a, num b =>
    if b = 0 then (if 0 < a then pinf else if a < 0 then ninf else nan)
    else num (a / b)

/-- numpy absolute value on float cells. -/
def pabs : Pval → Pval
  | nan => nan
  | pinf => pinf
  | ninf => pinf
  | num a => num |a|

/-- A Python object that is a number or None, as a float cell (None → NaN). -/
def ofOpt : Option ℚ → Pval
  | some q => num q
  | none => nan

end Pval

/-! ## Dict layer: statements as produced by financial_data_utils

`get_income_statement` / `get_balance_sheet` build `{year: {line: value}}`
dictionaries in which every line item of the fetched statement is a key of
every year's dict, with `None` standing for a NaN cell
(`statement[col].where(statement[col].notna(), None).to_dict()`); a line item
the provider does not report at all is a missing key. -/

/-- One statement cell seen through a Python dict: the key can be missing,
present with value None, or present with a number. -/
inductive LineVal where
  | missing : LineVal
  | null : LineVal
  | num : ℚ → LineVal
deriving DecidableEq, Repr

/-- One fiscal year's line items. -/
abbrev Row := List (String × LineVal)

/-- A statement dictionary: years (as integers, the source keys them by the
string of the calendar year) to line-item rows. -/
abbrev Stmt := List (Nat × Row)

def rowVal (r : Row) (k : String) : LineVal :=
  match r.lookup k with
  | some v => v
  | none => .missing

/-- Python `row.get(k, None)`: a missing key and a stored None both give None. -/
def getNone (r : Row) (k : String) : Option ℚ :=
  match rowVal r k with
  | .num q => some q
  | _ => none

/-- Python `row.get(k, 0)`: a missing key gives 0; a stored None stays None. -/
def getZero (r : Row) (k : String) : Option ℚ :=
  match rowVal r k with
  | .num q => some q
  | .null => none
  | .missing => some 0

/-- Python `row.get(k) or 0`: a missing key, a stored None and a stored 0 all
give 0. -/
def getOrZero (r : Row) (k : String) : ℚ :=
  match rowVal r k with
  | .num q => q
  | _ => 0

/-- Python `stmt.get(year, {})`. -/
def stmtRow (s : Stmt) (y : Nat) : Row :=
  match s.lookup y with
  | some r => r
  | none => []

/-- The loop shape shared by the dict-based ratio methods: iterate the years
in order and append each year's contribution (one entry, or nothing when the
guard fails) to the result. -/
def iterAppend {β : Type} (g : Nat × Row → List β) : List (Nat × Row) → List β → List β
  | [], acc => acc
  | yr :: rest, acc => iterAppend g rest (acc ++ g yr)

/-- The same loop shape for methods whose body can raise: the first raising
year aborts the whole method. -/
def iterAppendE {β : Type} (g : Nat × Row → Except String (List β)) :
    List (Nat × Row) → List β → Except String (List β)
  | [], acc => .ok acc
  | yr :: rest, acc =>
    match g yr with
    | .ok e => iterAppendE g rest (acc ++ e)
    | .error s => .error s

/-! ## new_profitable.py — class ProfitabilityRatios -/

namespace NewProfitable

/-- The loop body of `ProfitabilityRatios.net_profit_margin`
(src/new_profitable.py:17-30): Net Income / Total Revenue * 100 when Net
Income is not None and Total Revenue is truthy (not None, not 0). -/
def npmEntry (yr : Nat × Row) : List (Nat × ℚ) :=
  match getNone yr.2 "Net Income", getNone yr.2 "Total Revenue" with
  | some n, some r => if r ≠ 0 then [(yr.1, n / r * 100)] else []
  | _, _ => []

def net_profit_margin (inc : Stmt) : List (Nat × ℚ) :=
  if inc = [] then [] else iterAppend npmEntry inc []

/-- The loop body of `ProfitabilityRatios.return_on_equity`
(src/new_profitable.py:47-60): Net Income / Stockholders Equity * 100 when Net
Income is not None and the equity is truthy (the source's extra
`and equity != 0` conjunct is subsumed by truthiness). -/
def roeEntry (inc bs : Stmt) (yr : Nat × Row) : List (Nat × ℚ) :=
  match getNone (stmtRow inc yr.1) "Net Income",
        getNone (stmtRow bs yr.1) "Stockholders Equity" with
  | some n, some e => if e ≠ 0 then [(yr.1, n / e * 100)] else []
  | _, _ => []

def return_on_equity (inc bs : Stmt) : List (Nat × ℚ) :=
  if inc = [] ∨ bs = [] then [] else iterAppend (roeEntry inc bs) inc []

/-- The loop body of `ProfitabilityRatios.return_on_capital_employed`
(src/new_profitable.py:77-90): the code reads `Total Assets` alone as the
capital employed (it does not subtract current liabilities) and divides EBIT
by it when both are available and the denominator is truthy. -/
def roceEntry (inc bs : Stmt) (yr : Nat × Row) : List (Nat × ℚ) :=
  match getNone (stmtRow inc yr.1) "EBIT",
        getNone (stmtRow bs yr.1) "Total Assets" with
  | some e, some c => if c ≠ 0 then [(yr.1, e / c * 100)] else []
  | _, _ => []

def return_on_capital_employed (inc bs : Stmt) : List (Nat × ℚ) :=
  if inc = [] ∨ bs = [] then [] else iterAppend (roceEntry inc bs) inc []

end NewProfitable

/-! ## liquidity_ratio.py — class LiquidityRatios -/

namespace LiquidityRatio

/-- The loop body of `LiquidityRatios.current_ratio`
(src/liquidity_ratio.py:15-29): Current Assets / Current Liabilities when
Current Assets is not None and Current Liabilities is truthy. -/
def currentEntry (yr : Nat × Row) : List (Nat × ℚ) :=
  match getNone yr.2 "Current Assets", getNone yr.2 "Current Liabilities" with
  | some a, some c => if c ≠ 0 then [(yr.1, a / c)] else []
  | _, _ => []

def current_ratio (bs : Stmt) : List (Nat × ℚ) :=
  if bs = [] then [] else iterAppend currentEntry bs []

/-- The loop body of `LiquidityRatios.quick_ratio`
(src/liquidity_ratio.py:31-46): `inventory = data.get("Inventory", 0)` turns a
missing Inventory key into the number 0, so the ratio is then computed with
Inventory coerced to zero; a key stored as None survives the `.get` and makes
`current_assets - inventory` raise TypeError. -/
def quickEntry (yr : Nat × Row) : Except String (List (Nat × ℚ)) :=
  match getNone yr.2 "Current Assets", getNone yr.2 "Current Liabilities" with
  | some a, some c =>
    if c ≠ 0 then
      match getZero yr.2 "Inventory" with
      | some i => .ok [(yr.1, (a - i) / c)]
      | none => .error "TypeError"
    else .ok []
  | _, _ => .ok []

def quick_ratio (bs : Stmt) : Except String (List (Nat × ℚ)) :=
  if bs = [] then .ok [] else iterAppendE quickEntry bs []

end LiquidityRatio

/-! ## solvency_ratio.py — class SolvencyRatios -/

namespace SolvencyRatio

/-- The loop body of `SolvencyRatios.interest_coverage_ratio`
(src/solvency_ratio.py:33-47): EBIT divided by the *signed* Interest Expense
(the source takes no absolute value) when EBIT is not None and the expense is
truthy. -/
def icrEntry (inc : Stmt) (yr : Nat × Row) : List (Nat × ℚ) :=
  match getNone (stmtRow inc yr.1) "EBIT",
        getNone (stmtRow inc yr.1) "Interest Expense" with
  | some e, some i => if i ≠ 0 then [(yr.1, e / i)] else []
  | _, _ => []

def interest_coverage_ratio (inc : Stmt) : List (Nat × ℚ) :=
  if inc = [] then [] else iterAppend (icrEntry inc) inc []

end SolvencyRatio

/-! ## efficiency_ratio.py — class EfficiencyRatios -/

namespace EfficiencyRatio

/-- The loop body of `EfficiencyRatios.asset_turnover_ratio`
(src/efficiency_ratio.py:17-29): Revenue / ((assets + previous year's
assets)/2) when all three are not None; the previous year is looked up by
`str(int(year)-1)`.  The operands are plain Python floats here, so a zero
average raises ZeroDivisionError. -/
def assetEntry (inc bs : Stmt) (yr : Nat × Row) : Except String (List (Nat × ℚ)) :=
  match getNone (stmtRow inc yr.1) "Total Revenue",
        getNone (stmtRow bs yr.1) "Total Assets",
        getNone (stmtRow bs (yr.1 - 1)) "Total Assets" with
  | some r, some t, some p =>
    if (t + p) / 2 = 0 then .error "ZeroDivisionError"
    else .ok [(yr.1, r / ((t + p) / 2))]
  | _, _, _ => .ok []

def asset_turnover_ratio (inc bs : Stmt) : Except String (List (Nat × ℚ)) :=
  iterAppendE (assetEntry inc bs) inc []

/-- The loop body of `EfficiencyRatios.inventory_turnover_ratio`
(src/efficiency_ratio.py:32-44): the inventory of a year is
`(bs.get("Inventory") or 0) + (bs.get("Other Inventories") or 0)`, i.e.
missing and None entries are coerced to 0 before the sum; the ratio is
computed whenever COGS is not None and both coerced sums are positive (which
also keeps the average positive, so no division error). -/
def inventoryEntry (inc bs : Stmt) (yr : Nat × Row) : List (Nat × ℚ) :=
  let inventory := getOrZero (stmtRow bs yr.1) "Inventory"
    + getOrZero (stmtRow bs yr.1) "Other Inventories"
  let prev_inventory := getOrZero (stmtRow bs (yr.1 - 1)) "Inventory"
    + getOrZero (stmtRow bs (yr.1 - 1)) "Other Inventories"
  match getNone (stmtRow inc yr.1) "Cost Of Revenue" with
  | some c =>
    if 0 < inventory ∧ 0 < prev_inventory then
      [(yr.1, c / ((inventory + prev_inventory) / 2))]
    else []
  | none => []

def inventory_turnover_ratio (inc bs : Stmt) : List (Nat × ℚ) :=
  iterAppend (inventoryEntry inc bs) inc []

/-- The loop body of `EfficiencyRatios.receivables_turnover_ratio`
(src/efficiency_ratio.py:47-59): same shape as the asset turnover with
Accounts Receivable. -/
def receivablesEntry (inc bs : Stmt) (yr : Nat × Row) : Except String (List (Nat × ℚ)) :=
  match getNone (stmtRow inc yr.1) "Total Revenue",
        getNone (stmtRow bs yr.1) "Accounts Receivable",
        getNone (stmtRow bs (yr.1 - 1)) "Accounts Receivable" with
  | some r, some a, some p =>
    if (a + p) / 2 = 0 then .error "ZeroDivisionError"
    else .ok [(yr.1, r / ((a + p) / 2))]
  | _, _, _ => .ok []

def receivables_turnover_ratio (inc bs : Stmt) : Except String (List (Nat × ℚ)) :=
  iterAppendE (receivablesEntry inc bs) inc []

end EfficiencyRatio

/-! ## Pandas layer

A transposed statement DataFrame: `dates` is the row index in storage order
(the order matters for `rolling`/`iloc`), `cols` the set of columns, and
`cells` the stored rows.  `val` reproduces pandas access with alignment: a
date or column with no stored value reads as NaN. -/

structure Frame where
  dates : List Nat
  cols : List String
  cells : List (Nat × List (String × Pval))
deriving DecidableEq, Repr

def Frame.val (f : Frame) (d : Nat) (c : String) : Pval :=
  match f.cells.lookup d with
  | some row =>
    match row.lookup c with
    | some v => v
    | none => .nan
  | none => .nan

/-- `df[c] = series` for a derived column: the column is appended and each
stored row gains the cell computed from that row's date. -/
def Frame.addCol (f : Frame) (c : String) (v : Nat → Pval) : Frame :=
  { dates := f.dates
    cols := f.cols ++ [c]
    cells := f.cells.map (fun r => (r.1, r.2 ++ [(c, v r.1)])) }

/-! ## liquidity_ratios.py — calculate_liquidity_ratios -/

namespace LiquidityRatios

/-- One Current Ratio cell (src/liquidity_ratios.py:84): numpy division of the
two balance-sheet series, so a NaN operand gives NaN and a zero denominator
gives a signed infinity. -/
def currentRatioCell (bs : Frame) (d : Nat) : Pval :=
  Pval.div (bs.val d "Total Current Assets") (bs.val d "Total Current Liabilities")

/-- One Quick Ratio cell (src/liquidity_ratios.py:90). -/
def quickRatioCell (bs : Frame) (d : Nat) : Pval :=
  Pval.div (Pval.sub (bs.val d "Total Current Assets") (bs.val d "Inventory"))
    (bs.val d "Total Current Liabilities")

/-- One Cash Ratio cell (src/liquidity_ratios.py:95). -/
def cashRatioCell (bs : Frame) (d : Nat) : Pval :=
  Pval.div (bs.val d "Cash And Cash Equivalents") (bs.val d "Total Current Liabilities")

/-- `calculate_liquidity_ratios` (src/liquidity_ratios.py:74-98): each ratio
column is created only when its input columns exist, and is the pointwise
series quotient over the balance-sheet index. -/
def calculate_liquidity_ratios (bs : Frame) : List (String × List (Nat × Pval)) :=
  (if "Total Current Assets" ∈ bs.cols ∧ "Total Current Liabilities" ∈ bs.cols then
    [("Current Ratio", bs.dates.map (fun d => (d, currentRatioCell bs d)))]
   else [])
  ++ (if "Total Current Assets" ∈ bs.cols ∧ "Inventory" ∈ bs.cols ∧
        "Total Current Liabilities" ∈ bs.cols then
    [("Quick Ratio", bs.dates.map (fun d => (d, quickRatioCell bs d)))]
   else [])
  ++ (if "Cash And Cash Equivalents" ∈ bs.cols ∧ "Total Current Liabilities" ∈ bs.cols then
    [("Cash Ratio", bs.dates.map (fun d => (d, cashRatioCell bs d)))]
   else [])

end LiquidityRatios

/-! ## profitability_ratios.py — calculate_profitability_ratios -/

namespace ProfitabilityRatios

/-- One ROCE cell (src/profitability_ratios.py:106-114): Operating Income over
(Total Assets − Total Current Liabilities) times 100.  The source checks only
that the three columns exist; there is no check that the capital employed is
positive, so a negative denominator yields a defined (sign-flipped) value and
a zero denominator a signed infinity. -/
def roceCell (inc bs : Frame) (d : Nat) : Pval :=
  Pval.mul
    (Pval.div (inc.val d "Operating Income")
      (Pval.sub (bs.val d "Total Assets") (bs.val d "Total Current Liabilities")))
    (Pval.num 100)

/-- `calculate_profitability_ratios` (src/profitability_ratios.py:82-119):
results are indexed by the income-statement dates; each column is gated on its
input columns existing; series arithmetic aligns by date with NaN for a date
absent from the other frame; the EPS column is the scalar `trailingEPS` from
the info dict broadcast over all rows (np.nan when missing). -/
def calculate_profitability_ratios (inc bs : Frame) (trailingEPS : Option ℚ) :
    List (String × List (Nat × Pval)) :=
  (if "Net Income" ∈ inc.cols ∧ "Total Revenue" ∈ inc.cols then
    [("Net Profit Margin (%)", inc.dates.map (fun d =>
      (d, Pval.mul (Pval.div (inc.val d "Net Income") (inc.val d "Total Revenue"))
        (Pval.num 100))))]
   else [])
  ++ (if "Operating Income" ∈ inc.cols ∧ "Total Revenue" ∈ inc.cols then
    [("Operating Profit Margin (%)", inc.dates.map (fun d =>
      (d, Pval.mul (Pval.div (inc.val d "Operating Income") (inc.val d "Total Revenue"))
        (Pval.num 100))))]
   else [])
  ++ (if "Net Income" ∈ inc.cols ∧ "Total Stockholder Equity" ∈ bs.cols then
    [("Return on Equity (%)", inc.dates.map (fun d =>
      (d, Pval.mul (Pval.div (inc.val d "Net Income") (bs.val d "Total Stockholder Equity"))
        (Pval.num 100))))]
   else [])
  ++ (if "Net Income" ∈ inc.cols ∧ "Total Assets" ∈ bs.cols then
    [("Return on Assets (%)", inc.dates.map (fun d =>
      (d, Pval.mul (Pval.div (inc.val d "Net Income") (bs.val d "Total Assets"))
        (Pval.num 100))))]
   else [])
  ++ (if "Operating Income" ∈ inc.cols ∧ "Total Assets" ∈ bs.cols ∧
        "Total Current Liabilities" ∈ bs.cols then
    [("Return on Capital Employed (%)", inc.dates.map (fun d => (d, roceCell inc bs d)))]
   else [])
  ++ [("EPS", inc.dates.map (fun d => (d, Pval.ofOpt trailingEPS)))]

end ProfitabilityRatios

/-! ## solvency_ratios.py — calculate_solvency_ratios -/

namespace SolvencyRatios

/-- One Interest Coverage cell (src/solvency_ratios.py:96-100): Operating
Income over the absolute value of Interest Expense. -/
def icrCell (inc : Frame) (d : Nat) : Pval :=
  Pval.div (inc.val d "Operating Income") (Pval.pabs (inc.val d "Interest Expense"))

/-- `calculate_solvency_ratios` (src/solvency_ratios.py:77-112): results are
indexed by the *balance-sheet* dates; D/E and D/A prefer Long Term Debt over
Total Debt via an if/elif chain; Interest Coverage divides Operating Income by
`abs(Interest Expense)`. -/
def calculate_solvency_ratios (inc bs : Frame) : List (String × List (Nat × Pval)) :=
  (if "Long Term Debt" ∈ bs.cols ∧ "Total Stockholder Equity" ∈ bs.cols then
    [("Debt-to-Equity Ratio", bs.dates.map (fun d =>
      (d, Pval.div (bs.val d "Long Term Debt") (bs.val d "Total Stockholder Equity"))))]
   else if "Total Debt" ∈ bs.cols ∧ "Total Stockholder Equity" ∈ bs.cols then
    [("Debt-to-Equity Ratio", bs.dates.map (fun d =>
      (d, Pval.div (bs.val d "Total Debt") (bs.val d "Total Stockholder Equity"))))]
   else [])
  ++ (if "Operating Income" ∈ inc.cols ∧ "Interest Expense" ∈ inc.cols then
    [("Interest Coverage Ratio", bs.dates.map (fun d => (d, icrCell inc d)))]
   else [])
  ++ (if "Long Term Debt" ∈ bs.cols ∧ "Total Assets" ∈ bs.cols then
    [("Debt-to-Asset Ratio", bs.dates.map (fun d =>
      (d, Pval.div (bs.val d "Long Term Debt") (bs.val d "Total Assets"))))]
   else if "Total Debt" ∈ bs.cols ∧ "Total Assets" ∈ bs.cols then
    [("Debt-to-Asset Ratio", bs.dates.map (fun d =>
      (d, Pval.div (bs.val d "Total Debt") (bs.val d "Total Assets"))))]
   else [])

end SolvencyRatios

/-! ## efficiency_ratios.py — calculate_efficiency_ratios -/

namespace EfficiencyRatios

/-- `series.rolling(window=2).mean()` over the stored row order: the first
row has no full window and is NaN; every later row is the mean of itself and
the row stored directly before it (NaN-propagating). -/
def rollingMean2Go : Pval → List Pval → List Pval
  | _, [] => []
  | prev, v :: rest => Pval.div (Pval.add prev v) (Pval.num 2) :: rollingMean2Go v rest

def rollingMean2 : List Pval → List Pval
  | [] => []
  | v0 :: rest => Pval.nan :: rollingMean2Go v0 rest

/-- The two-row average series of a balance-sheet column, with the source's
first-row fallback `avg.iloc[0] = column.iloc[0]`
(src/efficiency_ratios.py:90-92 and the identical lines for the other two
rolling columns). -/
def avgSeries (bs : Frame) (c : String) : List (Nat × Pval) :=
  let column := bs.dates.map (fun d => bs.val d c)
  let avg := rollingMean2 column
  let avg := match column, avg with
    | v0 :: _, _ :: rest => v0 :: rest
    | _, _ => avg
  bs.dates.zip avg

/-- One rolling-turnover result column: `results.loc[common_dates, name] =
income[numCol][common_dates] / avg[common_dates]`; result rows outside the
common dates stay NaN. -/
def turnoverCol (inc : Frame) (numCol : String) (bs : Frame) (denCol : String) :
    List (Nat × Pval) :=
  let avg := avgSeries bs denCol
  inc.dates.map (fun d =>
    (d, if d ∈ bs.dates then Pval.div (inc.val d numCol) ((avg.lookup d).getD .nan)
        else .nan))

/-- `calculate_efficiency_ratios` (src/efficiency_ratios.py:78-142): the three
rolling-average turnover columns plus single-period DSO, each gated on its
input columns existing and on a nonempty date intersection. -/
def calculate_efficiency_ratios (inc bs : Frame) : List (String × List (Nat × Pval)) :=
  let common := inc.dates.filter (fun d => d ∈ bs.dates)
  (if "Total Revenue" ∈ inc.cols ∧ "Total Assets" ∈ bs.cols ∧ common ≠ [] then
    [("Asset Turnover Ratio", turnoverCol inc "Total Revenue" bs "Total Assets")]
   else [])
  ++ (if "Cost Of Revenue" ∈ inc.cols ∧ "Inventory" ∈ bs.cols ∧ common ≠ [] then
    [("Inventory Turnover Ratio", turnoverCol inc "Cost Of Revenue" bs "Inventory")]
   else [])
  ++ (if "Total Revenue" ∈ inc.cols ∧ "Net Receivables" ∈ bs.cols ∧ common ≠ [] then
    [("Receivables Turnover Ratio", turnoverCol inc "Total Revenue" bs "Net Receivables")]
   else [])
  ++ (if "Total Revenue" ∈ inc.cols ∧ "Net Receivables" ∈ bs.cols ∧ common ≠ [] then
    [("Days Sales Outstanding", inc.dates.map (fun d =>
      (d, if d ∈ bs.dates then
            Pval.mul (Pval.div (bs.val d "Net Receivables") (inc.val d "Total Revenue"))
              (Pval.num 365)
          else .nan)))]
   else [])

end EfficiencyRatios

/-! ## valuation_ratios.py — calculate_valuation_ratios

Dates are encoded as `year*10000 + month*100 + day`, which preserves calendar
order; the price series is a list of (date, Close) pairs in storage order
(yfinance download order, chronologically ascending). -/

namespace ValuationRatios

/-- `stock_data.index[stock_data.index <= date][-1]`
(src/valuation_ratios.py:96): the last stored price point dated at or before
the statement date; indexing an empty selection with -1 raises IndexError. -/
def closestPrice (stock : List (Nat × Pval)) (date : Nat) : Except String Pval :=
  match (stock.filter (fun p => p.1 ≤ date)).getLast? with
  | some p => .ok p.2
  | none => .error "IndexError"

/-- The loop of src/valuation_ratios.py:94-97 building `yearly_stock_prices`:
it raises out of the whole function at the first statement date with no price
at or before it. -/
def priceMapGo (stock : List (Nat × Pval)) :
    List Nat → List (Nat × Pval) → Except String (List (Nat × Pval))
  | [], acc => .ok acc
  | d :: rest, acc =>
    match closestPrice stock d with
    | .ok p => priceMapGo stock rest (acc ++ [(d, p)])
    | .error s => .error s

def priceMap (stock : List (Nat × Pval)) (fin_dates : List Nat) :
    Except String (List (Nat × Pval)) :=
  priceMapGo stock fin_dates []

/-- What `calculate_valuation_ratios` leaves behind: the ratio table plus the
income statement and balance sheet as they are after the call — the source
writes the derived `EPS` and `Book Value Per Share` columns straight into the
fetched frames (src/valuation_ratios.py:114 and 126). -/
structure ValOutput where
  results : List (String × List (Nat × Pval))
  income_out : Frame
  balance_out : Frame
deriving DecidableEq, Repr

/-- `calculate_valuation_ratios` (src/valuation_ratios.py:79-138).
The trailing `reset_index`/column-rename only relabels the returned table and
is not modelled.  `sharesOutstanding` is `info.get('sharesOutstanding', None)`
and is used under a truthiness test; `enterpriseToEbitda` is
`info.get('enterpriseToEbitda', np.nan)`. -/
def calculate_valuation_ratios (inc bs : Frame) (stock : List (Nat × Pval))
    (sharesOutstanding : Option ℚ) (enterpriseToEbitda : Option ℚ) :
    Except String ValOutput := do
  let fin_dates := inc.dates
  let prices ← priceMap stock fin_dates
  let priceAt := fun d => (prices.lookup d).getD Pval.nan
  let (inc2, peCol) :=
    if "Net Income" ∈ inc.cols then
      match sharesOutstanding with
      | some s =>
        if s ≠ 0 then
          let inc2 := inc.addCol "EPS"
            (fun d => Pval.div (inc.val d "Net Income") (Pval.num s))
          (inc2, [("P/E Ratio", fin_dates.map (fun d =>
            (d, Pval.div (priceAt d) (inc2.val d "EPS"))))])
        else (inc, ([] : List (String × List (Nat × Pval))))
      | none => (inc, [])
    else (inc, [])
  let (bs2, pbCol) :=
    if "Total Stockholder Equity" ∈ bs.cols then
      match sharesOutstanding with
      | some s =>
        if s ≠ 0 then
          let bs2 := bs.addCol "Book Value Per Share"
            (fun d => Pval.div (bs.val d "Total Stockholder Equity") (Pval.num s))
          (bs2, [("P/B Ratio", fin_dates.map (fun d =>
            (d, Pval.div (priceAt d) (bs2.val d "Book Value Per Share"))))])
        else (bs, ([] : List (String × List (Nat × Pval))))
      | none => (bs, [])
    else (bs, [])
  pure { results := peCol ++ pbCol
           ++ [("EV/EBITDA", fin_dates.map (fun d => (d, Pval.ofOpt enterpriseToEbitda)))]
         income_out := inc2
         balance_out := bs2 }

end ValuationRatios

/-! ## market_performance_ratios.py — calculate_market_performance_ratios -/

namespace MarketPerformanceRatios

def yearOf (d : Nat) : Nat := d / 10000

/-- `datetime(year, 1, 1)` under the date encoding. -/
def yearStart (y : Nat) : Nat := y * 10000 + 101

/-- `datetime(year, 12, 31)` under the date encoding. -/
def yearEnd (y : Nat) : Nat := y * 10000 + 1231

/-- One dividend payment of the fetched dividend history; `tzAware` records
whether its index timestamp still carries a timezone. -/
structure DivEntry where
  date : Nat
  tzAware : Bool
  amount : ℚ
deriving DecidableEq, Repr

/-- Lines 88-89 of src/market_performance_ratios.py: the function reassigns
the fetched dividend Series' index to a timezone-stripped copy before any
computation — an in-place mutation of the input object. -/
def stripTz (divs : List DivEntry) : List DivEntry :=
  divs.map (fun e => { e with tzAware := false })

def firstDedup : List Nat → List Nat
  | [] => []
  | y :: rest => y :: (firstDedup rest).filter (fun z => z ≠ y)

/-- `stock_data.resample('YE').last()` (src/market_performance_ratios.py:95):
one row per calendar year present in the price series, keyed by the year-end
date and holding the year's last stored Close.  (pandas emits the years in
ascending order; for a chronologically stored series — the order yfinance
returns — this is the order of first appearance used here.) -/
def resampleYE (stock : List (Nat × Pval)) : List (Nat × Pval) :=
  (firstDedup (stock.map (fun p => yearOf p.1))).filterMap (fun y =>
    ((stock.filter (fun p => yearOf p.1 = y)).getLast?).map (fun p => (yearEnd y, p.2)))

/-- The sum the source takes over `dividends[(idx >= year_start) & (idx <= year_end)]`. -/
def annualDividend (divs : List DivEntry) (y : Nat) : ℚ :=
  ((divs.filter (fun e => yearStart y ≤ e.date ∧ e.date ≤ yearEnd y)).map
    (fun e => e.amount)).sum

/-- The `Dividend Yield (%)` column built by the loop at
src/market_performance_ratios.py:100-117.  When the year's dividend sum is not
positive the cell is assigned 0.  When it is positive, the source looks the
price up by testing `(ticker, year_string) in stock_yearly.index`; that index
holds timestamps, never (ticker, string) tuples, so the test is always False
and the cell keeps its initial NaN. -/
def dividendYieldCol (stock : List (Nat × Pval)) (divs : List DivEntry) :
    List (Nat × Pval) :=
  let divs2 := stripTz divs
  let stock_yearly := resampleYE stock
  stock_yearly.map (fun p =>
    let annual := annualDividend divs2 (yearOf p.1)
    (p.1, if 0 < annual then Pval.nan else Pval.num 0))

/-- What `calculate_market_performance_ratios` leaves behind for the dividend
part: the yield column and the mutated dividend history. -/
structure MarketPerfOutput where
  dividendYield : List (Nat × Pval)
  dividends_out : List DivEntry
deriving DecidableEq, Repr

/-- The dividend-yield part of `calculate_market_performance_ratios`
(src/market_performance_ratios.py:80-117); the Beta and Market Capitalization
columns are separate columns of the final concat and do not touch the yield
cells or the dividend history. -/
def calculate_market_performance_ratios (stock : List (Nat × Pval))
    (divs : List DivEntry) : MarketPerfOutput :=
  { dividendYield := dividendYieldCol stock divs
    dividends_out := stripTz divs }

end MarketPerformanceRatios

/-! ## profitability_ratios.py — main (benchmark orchestration) -/

namespace ProfitMain

/-- What `fetch_financial_data` returns for one ticker, reduced to the parts
`calculate_profitability_ratios` consumes. -/
structure FetchedData where
  income : Frame
  balance : Frame
  trailingEPS : Option ℚ
deriving DecidableEq, Repr

/-- The computed tables `main` holds when it completes. -/
structure MainOutput where
  company : List (String × List (Nat × Pval))
  benchmarks : List (String × List (String × List (Nat × Pval)))
  market : Option (List (String × List (Nat × Pval)))
deriving DecidableEq, Repr

/-- One iteration of the benchmark loop (src/profitability_ratios.py:222-225):
fetch the peer — unguarded, so a failure propagates — and append its ratio
table. -/
def benchLoop (env : String → Except String FetchedData) :
    List String → List (String × List (String × List (Nat × Pval))) →
    Except String (List (String × List (String × List (Nat × Pval))))
  | [], acc => .ok acc
  | b :: rest, acc =>
    match env b with
    | .ok bd => benchLoop env rest (acc ++ [(b, ProfitabilityRatios.calculate_profitability_ratios
        bd.income bd.balance bd.trailingEPS)])
    | .error s => .error s

/-- The fetch/compute flow of `main` (src/profitability_ratios.py:210-246)
against an environment mapping each ticker to its fetch outcome.  The primary
fetch and every benchmark fetch are unguarded — an exception propagates and
aborts the run — while the market-index fetch alone is wrapped in try/except
(lines 232-236), which downgrades its failure to `market = none`. -/
def main (env : String → Except String FetchedData) (ticker : String)
    (benchmarks : List String) (market_index : Option String) :
    Except String MainOutput := do
  let cd ← env ticker
  let company := ProfitabilityRatios.calculate_profitability_ratios
    cd.income cd.balance cd.trailingEPS
  let bres ← benchLoop env benchmarks []
  let market := match market_index with
    | none => none
    | some m =>
      match env m with
      | .ok md => some (ProfitabilityRatios.calculate_profitability_ratios
          md.income md.balance md.trailingEPS)
      | .error _ => none
  pure { company := company, benchmarks := bres, market := market }

end ProfitMain

/-! ## General lemmas about the loop shapes and float cells -/

theorem iterAppend_eq {β : Type} (g : Nat × Row → List β) (l : List (Nat × Row))
    (acc : List β) : iterAppend g l acc = acc ++ (l.map g).flatten := by
  induction l generalizing acc with
  | nil => simp [iterAppend]
  | cons yr rest ih => simp [iterAppend, ih]

theorem mem_iterAppend {β : Type} {g : Nat × Row → List β} {l : List (Nat × Row)}
    {p : β} : p ∈ iterAppend g l [] ↔ ∃ yr ∈ l, p ∈ g yr := by
  simp only [iterAppend_eq, List.nil_append, List.mem_flatten, List.mem_map]
  constructor
  · rintro ⟨s, ⟨yr, hyr, rfl⟩, hp⟩
    exact ⟨yr, hyr, hp⟩
  · rintro ⟨yr, hyr, hp⟩
    exact ⟨g yr, ⟨yr, hyr, rfl⟩, hp⟩

theorem iterAppendE_ok_mem {β : Type} {g : Nat × Row → Except String (List β)}
    {l : List (Nat × Row)} {acc r : List β} {p : β}
    (h : iterAppendE g l acc = .ok r) (hp : p ∈ r) :
    p ∈ acc ∨ ∃ yr ∈ l, ∃ e, g yr = .ok e ∧ p ∈ e := by
  induction l generalizing acc with
  | nil =>
    simp only [iterAppendE, Except.ok.injEq] at h
    exact .inl (h ▸ hp)
  | cons yr rest ih =>
    simp only [iterAppendE] at h
    cases hg : g yr with
    | ok e =>
      rw [hg] at h
      rcases ih h with hacc | ⟨yr2, hyr2, e2, hge2, hpe2⟩
      · rcases List.mem_append.mp hacc with h1 | h2
        · exact .inl h1
        · exact .inr ⟨yr, by simp, e, hg, h2⟩
      · exact .inr ⟨yr2, by simp [hyr2], e2, hge2, hpe2⟩
    | error s => rw [hg] at h; cases h

theorem Pval.div_nan_right (x : Pval) : Pval.div x .nan = .nan := by
  cases x <;> rfl

/-! ## Concrete fixtures used to settle the claims -/

namespace Fix

/-- A balance sheet whose Total Current Liabilities is the number 0. -/
def bsZeroCL : Frame :=
  { dates := [20230331]
    cols := ["Total Current Assets", "Total Current Liabilities"]
    cells := [(20230331,
      [("Total Current Assets", .num 100), ("Total Current Liabilities", .num 0)])] }

/-- One-year statements: 2023 exists, 2022 does not. -/
def incOneYear : Stmt :=
  [(2023, [("Total Revenue", LineVal.num 100), ("Cost Of Revenue", LineVal.num 80)])]

def bsOneYear : Stmt :=
  [(2023, [("Total Assets", LineVal.num 300), ("Inventory", LineVal.num 50),
    ("Accounts Receivable", LineVal.num 40)])]

def incFOneYear : Frame :=
  { dates := [20230331]
    cols := ["Total Revenue", "Cost Of Revenue"]
    cells := [(20230331, [("Total Revenue", .num 100), ("Cost Of Revenue", .num 80)])] }

def bsFOneYear : Frame :=
  { dates := [20230331]
    cols := ["Total Assets", "Inventory", "Net Receivables"]
    cells := [(20230331, [("Total Assets", .num 300), ("Inventory", .num 50),
      ("Net Receivables", .num 40)])] }

/-- Scenario B data: TotalAssets(2022)=200, TotalAssets(2023)=300,
TotalRevenue(2023)=100. -/
def incScenB : Stmt := [(2023, [("Total Revenue", LineVal.num 100)])]

def bsScenB : Stmt :=
  [(2023, [("Total Assets", LineVal.num 300)]),
   (2022, [("Total Assets", LineVal.num 200)])]

/-- Scenario B as frames, rows stored in ascending chronological order. -/
def incFScenB : Frame :=
  { dates := [20230331]
    cols := ["Total Revenue"]
    cells := [(20230331, [("Total Revenue", .num 100)])] }

def bsFScenB : Frame :=
  { dates := [20220331, 20230331]
    cols := ["Total Assets"]
    cells := [(20220331, [("Total Assets", .num 200)]),
      (20230331, [("Total Assets", .num 300)])] }

/-- Scenario B balance sheet with rows stored most-recent-first — the order
`tick.balance_sheet.T` actually produces (the repository relies on it:
`get_balance_sheet` takes `iloc[:, :duration]` as the most recent years). -/
def bsFScenBDesc : Frame :=
  { dates := [20230331, 20220331]
    cols := ["Total Assets"]
    cells := [(20230331, [("Total Assets", .num 300)]),
      (20220331, [("Total Assets", .num 200)])] }

/-- A balance sheet with no Inventory key at all. -/
def bsQuick : Stmt :=
  [(2023, [("Current Assets", LineVal.num 100), ("Current Liabilities", LineVal.num 50)])]

def incInv : Stmt := [(2023, [("Cost Of Revenue", LineVal.num 80)])]

/-- Balance years carrying only Other Inventories; the Inventory key is absent. -/
def bsInv : Stmt :=
  [(2023, [("Other Inventories", LineVal.num 10)]),
   (2022, [("Other Inventories", LineVal.num 10)])]

/-- Scenario E: two fiscal dates; the price series starts after the first. -/
def incScenE : Frame :=
  { dates := [20190331, 20200331]
    cols := ["Net Income"]
    cells := [(20190331, [("Net Income", .num 10)]),
      (20200331, [("Net Income", .num 12)])] }

def bsEmpty : Frame := { dates := [], cols := [], cells := [] }

def stockScenE : List (Nat × Pval) := [(20190601, .num 50), (20200301, .num 60)]

def emptyData : ProfitMain.FetchedData :=
  { income := bsEmpty, balance := bsEmpty, trailingEPS := none }

/-- Scenario D environment: fetching "XYZ" raises; every other ticker resolves. -/
def envXYZfails : String → Except String ProfitMain.FetchedData :=
  fun t => if t = "XYZ" then .error "EntityFetchFailure" else .ok emptyData

/-- Statements with Operating Income 50, Total Assets 100, Current
Liabilities 150 — capital employed 100 − 150 = −50 < 0. -/
def incRoce : Frame :=
  { dates := [20230331]
    cols := ["Operating Income"]
    cells := [(20230331, [("Operating Income", .num 50)])] }

def bsRoce : Frame :=
  { dates := [20230331]
    cols := ["Total Assets", "Total Current Liabilities"]
    cells := [(20230331, [("Total Assets", .num 100),
      ("Total Current Liabilities", .num 150)])] }

def incRoceS : Stmt := [(2023, [("EBIT", LineVal.num 50)])]

def bsRoceS : Stmt :=
  [(2023, [("Total Assets", LineVal.num 100), ("Current Liabilities", LineVal.num 150)])]

/-- An income statement with a negatively-signed interest expense. -/
def incIcr : Stmt :=
  [(2023, [("EBIT", LineVal.num 50), ("Interest Expense", LineVal.num (-10))])]

def incVal : Frame :=
  { dates := [20230331]
    cols := ["Net Income"]
    cells := [(20230331, [("Net Income", .num 10)])] }

def stockVal : List (Nat × Pval) := [(20230101, .num 50)]

/-- The output the valuation computation produces on `incVal`/`stockVal`:
the returned income statement has gained the derived EPS column. -/
def valOutMutated : ValuationRatios.ValOutput :=
  { results := [("P/E Ratio", [(20230331, Pval.num 25)]),
      ("EV/EBITDA", [(20230331, Pval.nan)])]
    income_out :=
      { dates := [20230331]
        cols := ["Net Income", "EPS"]
        cells := [(20230331, [("Net Income", Pval.num 10), ("EPS", Pval.num 2)])] }
    balance_out := bsEmpty }

def stockDy : List (Nat × Pval) := [(20230315, .num 50)]

/-- A balance sheet whose Total Current Liabilities cell is NaN (absent). -/
def bsNaNCL : Frame :=
  { dates := [20230331]
    cols := ["Total Current Assets", "Total Current Liabilities"]
    cells := [(20230331,
      [("Total Current Assets", .num 100), ("Total Current Liabilities", .nan)])] }

/-- An income frame with a negatively-signed Interest Expense. -/
def incIcrF : Frame :=
  { dates := [20230331]
    cols := ["Operating Income", "Interest Expense"]
    cells := [(20230331,
      [("Operating Income", .num 50), ("Interest Expense", .num (-10))])] }

/-- A balance frame carrying stockholder equity, for the valuation run. -/
def bsVal : Frame :=
  { dates := [20230331]
    cols := ["Total Stockholder Equity"]
    cells := [(20230331, [("Total Stockholder Equity", .num 20)])] }

/-- What the valuation computation produces on `incVal`/`bsVal`/`stockVal` with
5 shares outstanding: both fetched frames come back extended by their derived
column. -/
def valOutFull : ValuationRatios.ValOutput :=
  { results := [("P/E Ratio", [(20230331, Pval.num 25)]),
      ("P/B Ratio", [(20230331, Pval.num (25/2))]),
      ("EV/EBITDA", [(20230331, Pval.nan)])]
    income_out :=
      { dates := [20230331]
        cols := ["Net Income", "EPS"]
        cells := [(20230331, [("Net Income", Pval.num 10), ("EPS", Pval.num 2)])] }
    balance_out :=
      { dates := [20230331]
        cols := ["Total Stockholder Equity", "Book Value Per Share"]
        cells := [(20230331, [("Total Stockholder Equity", Pval.num 20),
          ("Book Value Per Share", Pval.num 4)])] } }

end Fix

/-! ## Claim theorems -/

/-- C1, counterexample: in `calculate_liquidity_ratios` a zero Total Current
Liabilities does not make the Current Ratio undefined — the computed cell is
positive infinity, contradicting "never infinity". -/
theorem C1_cx_zero_denominator_gives_infinity :
    (LiquidityRatios.calculate_liquidity_ratios Fix.bsZeroCL).lookup "Current Ratio"
      = some [(20230331, Pval.pinf)] := by decide

/-- C2, counterexample: on the same one-year data (2023 present, 2022 absent)
the class asset turnover of efficiency_ratio.py is undefined (empty result)
while the script asset turnover of efficiency_ratios.py falls back to the
single current value and reports 100/300 — two rolling-average ratio
implementations with different fallback policies, so no single policy holds. -/
theorem C2_cx_fallback_policies_differ :
    EfficiencyRatio.asset_turnover_ratio Fix.incOneYear Fix.bsOneYear = .ok []
    ∧ (EfficiencyRatios.calculate_efficiency_ratios Fix.incFOneYear Fix.bsFOneYear).lookup
        "Asset Turnover Ratio" = some [(20230331, Pval.num (1/3))] := by
  refine ⟨by rfl, ?_⟩
  simp [EfficiencyRatios.calculate_efficiency_ratios, EfficiencyRatios.turnoverCol,
    EfficiencyRatios.avgSeries, EfficiencyRatios.rollingMean2, EfficiencyRatios.rollingMean2Go,
    Fix.incFOneYear, Fix.bsFOneYear, Frame.val, List.lookup, Pval.add, Pval.div] <;> norm_num

/-- C3, counterexample: on Scenario B data stored in the order the provider
actually delivers (`tick.balance_sheet.T` is most-recent-first), the script
implementation's positional rolling average gives the 2023 row the single-value
fallback 300 as its average, so Asset Turnover(2023) = 100/300 = 1/3, not the
claimed 0.4. -/
theorem C3_cx_provider_order_asset_turnover :
    (EfficiencyRatios.calculate_efficiency_ratios Fix.incFScenB Fix.bsFScenBDesc).lookup
        "Asset Turnover Ratio" = some [(20230331, Pval.num (1/3))]
    ∧ ((1 : ℚ)/3 ≠ 2/5) := by
  constructor
  · simp [EfficiencyRatios.calculate_efficiency_ratios, EfficiencyRatios.turnoverCol,
      EfficiencyRatios.avgSeries, EfficiencyRatios.rollingMean2, EfficiencyRatios.rollingMean2Go,
      Fix.incFScenB, Fix.bsFScenBDesc, Frame.val, List.lookup, Pval.add, Pval.div] <;>
      norm_num
  · norm_num

/-- C3 (amended): Scenario B — with TotalAssets(2022)=200, TotalAssets(2023)=300
and TotalRevenue(2023)=100, the class implementation computes Asset
Turnover(2023) = 100/((200+300)/2) = 0.4; the script implementation computes
0.4 only when the balance-sheet rows are stored oldest-first — on the
provider's most-recent-first storage order its positional rolling average gives
2023 the single-value fallback and reports 100/300 = 1/3 instead. -/
theorem C3_scenario_b_asset_turnover :
    EfficiencyRatio.asset_turnover_ratio Fix.incScenB Fix.bsScenB = .ok [(2023, 2/5)]
    ∧ (EfficiencyRatios.calculate_efficiency_ratios Fix.incFScenB Fix.bsFScenB).lookup
        "Asset Turnover Ratio" = some [(20230331, Pval.num (2/5))]
    ∧ (EfficiencyRatios.calculate_efficiency_ratios Fix.incFScenB Fix.bsFScenBDesc).lookup
        "Asset Turnover Ratio" = some [(20230331, Pval.num (1/3))] := by
  refine ⟨?_, ?_, ?_⟩
  · simp [EfficiencyRatio.asset_turnover_ratio, EfficiencyRatio.assetEntry,
      iterAppendE, stmtRow, getNone, rowVal, List.lookup, Fix.incScenB, Fix.bsScenB] <;>
      norm_num
  · simp [EfficiencyRatios.calculate_efficiency_ratios, EfficiencyRatios.turnoverCol,
      EfficiencyRatios.avgSeries, EfficiencyRatios.rollingMean2, EfficiencyRatios.rollingMean2Go,
      Fix.incFScenB, Fix.bsFScenB, Frame.val, List.lookup, Pval.add, Pval.div] <;> norm_num
  · simp [EfficiencyRatios.calculate_efficiency_ratios, EfficiencyRatios.turnoverCol,
      EfficiencyRatios.avgSeries, EfficiencyRatios.rollingMean2, EfficiencyRatios.rollingMean2Go,
      Fix.incFScenB, Fix.bsFScenBDesc, Frame.val, List.lookup, Pval.add, Pval.div] <;>
      norm_num

/-- C4, counterexample: Quick Ratio with an absent Inventory key is *computed*
(Inventory coerced to 0, giving (100−0)/50 = 2), and the class Inventory
Turnover with an absent Inventory key is computed from Other Inventories alone
— neither is undefined as the claim requires. -/
theorem C4_cx_missing_inventory_coerced :
    LiquidityRatio.quick_ratio Fix.bsQuick = .ok [(2023, 2)]
    ∧ EfficiencyRatio.inventory_turnover_ratio Fix.incInv Fix.bsInv = [(2023, 8)] := by
  constructor
  · simp [LiquidityRatio.quick_ratio, LiquidityRatio.quickEntry, iterAppendE,
      getNone, getZero, rowVal, List.lookup, Fix.bsQuick] <;> norm_num
  · simp [EfficiencyRatio.inventory_turnover_ratio, EfficiencyRatio.inventoryEntry,
      iterAppend, stmtRow, getNone, getOrZero, rowVal, List.lookup, Fix.incInv,
      Fix.bsInv] <;> norm_num

/-- C5, counterexample: Scenario E data (no price point at or before the 2019
statement date) makes `calculate_valuation_ratios` raise IndexError for the
whole call — the 2020 period with a suitable price gets no ratio either,
contradicting "later periods still compute normally, without any exception". -/
theorem C5_cx_missing_price_raises :
    ValuationRatios.calculate_valuation_ratios Fix.incScenE Fix.bsEmpty Fix.stockScenE
      (some 5) none = .error "IndexError" := by rfl

/-- C6, counterexample: Scenario D — with peer "XYZ" failing to fetch, `main`
of profitability_ratios.py aborts with the peer's exception; the second peer
"ABC" and the comparison output are never produced, contradicting the claimed
per-peer isolation. -/
theorem C6_cx_peer_failure_aborts :
    ProfitMain.main Fix.envXYZfails "PRIM" ["XYZ", "ABC"] (some "IDX")
      = .error "EntityFetchFailure" := by rfl

/-- C7, counterexample: with Operating Income 50, Total Assets 100, Current
Liabilities 150 the capital employed is −50 ≤ 0, yet the script reports the
defined value −100 instead of undefined; and the class variant divides by
Total Assets alone, reporting 50 where the claimed formula gives −100. -/
theorem C7_cx_roce_negative_denominator_defined :
    (ProfitabilityRatios.calculate_profitability_ratios Fix.incRoce Fix.bsRoce none).lookup
        "Return on Capital Employed (%)" = some [(20230331, Pval.num (-100))]
    ∧ NewProfitable.return_on_capital_employed Fix.incRoceS Fix.bsRoceS = [(2023, 50)]
    ∧ (50 : ℚ) ≠ 50 / (100 - 150) * 100 := by
  refine ⟨?_, ?_, by norm_num⟩
  · simp [ProfitabilityRatios.calculate_profitability_ratios,
      ProfitabilityRatios.roceCell, Fix.incRoce, Fix.bsRoce, Frame.val, List.lookup,
      Pval.sub, Pval.div, Pval.mul, Pval.ofOpt] <;> norm_num
  · simp [NewProfitable.return_on_capital_employed, NewProfitable.roceEntry,
      iterAppend, stmtRow, getNone, rowVal, List.lookup, Fix.incRoceS,
      Fix.bsRoceS] <;> norm_num

/-- C8, counterexample: with EBIT 50 and Interest Expense −10 the class
interest coverage is 50/(−10) = −5, not 50/|−10| = 5 — the class variant
divides by the signed expense. -/
theorem C8_cx_signed_interest_expense :
    SolvencyRatio.interest_coverage_ratio Fix.incIcr = [(2023, -5)]
    ∧ ((-5 : ℚ) ≠ 50 / |(-10 : ℚ)|) := by
  constructor
  · simp [SolvencyRatio.interest_coverage_ratio, SolvencyRatio.icrEntry,
      iterAppend, stmtRow, getNone, rowVal, List.lookup, Fix.incIcr] <;> norm_num
  · rw [abs_of_nonpos (by norm_num)]
    norm_num

/-- C9, counterexample: the valuation computation hands back an income
statement that differs from the fetched one — it has gained the derived EPS
column — so the fetched input data is mutated. -/
theorem C9_cx_valuation_mutates_income :
    ValuationRatios.calculate_valuation_ratios Fix.incVal Fix.bsEmpty Fix.stockVal
        (some 5) none = .ok Fix.valOutMutated
    ∧ Fix.valOutMutated.income_out ≠ Fix.incVal := by
  constructor
  · simp [ValuationRatios.calculate_valuation_ratios, ValuationRatios.priceMap,
      ValuationRatios.closestPrice, Frame.addCol, Frame.val, Fix.incVal, Fix.bsEmpty,
      Fix.stockVal, Fix.valOutMutated, Pval.div, Pval.ofOpt, List.lookup, List.filter,
      ValuationRatios.priceMapGo, bind, Except.bind, pure, Except.pure] <;> norm_num
  · decide

/-! ## Amended / general claim theorems -/

/-- C1 (amended): in the dict-based class variants a zero-or-absent
denominator omits the period from the result (here ROE), and in the pandas
script variants an absent (NaN) denominator makes the cell NaN; but a *zero*
denominator in a script variant yields a signed infinity, not an undefined
cell.  No exception is raised in either style (the functions are total). -/
theorem C1_denominator_policy
    (inc bs : Stmt) (y : Nat) (q : ℚ) (bs1 : Frame) (d1 : Nat)
    (bs2 : Frame) (d2 : Nat) (a : ℚ)
    (hsk : getNone (stmtRow bs y) "Stockholders Equity" = none
      ∨ getNone (stmtRow bs y) "Stockholders Equity" = some 0)
    (h1 : bs1.val d1 "Total Current Liabilities" = .nan)
    (h2a : bs2.val d2 "Total Current Assets" = .num a)
    (h2p : 0 < a)
    (h2z : bs2.val d2 "Total Current Liabilities" = .num 0) :
    (y, q) ∉ NewProfitable.return_on_equity inc bs
    ∧ LiquidityRatios.currentRatioCell bs1 d1 = .nan
    ∧ LiquidityRatios.currentRatioCell bs2 d2 = .pinf := by
  refine ⟨?_, ?_, ?_⟩
  · intro hmem
    unfold NewProfitable.return_on_equity at hmem
    split at hmem
    · simp at hmem
    · rw [mem_iterAppend] at hmem
      obtain ⟨yr, hyr, hin⟩ := hmem
      rcases hN : getNone (stmtRow inc yr.1) "Net Income" with _ | n <;>
        rcases hE : getNone (stmtRow bs yr.1) "Stockholders Equity" with _ | e <;>
        simp [NewProfitable.roeEntry, hN, hE] at hin
      obtain ⟨hene, hy, -⟩ := hin
      subst hy
      rcases hsk with h | h <;> rw [hE] at h <;> simp at h
      exact hene h
  · unfold LiquidityRatios.currentRatioCell
    rw [h1, Pval.div_nan_right]
  · unfold LiquidityRatios.currentRatioCell
    rw [h2a, h2z]
    simp [Pval.div, h2p]

/-- C1 witness. -/
theorem C1_denominator_policy_witness :
    (2023, (0 : ℚ)) ∉ NewProfitable.return_on_equity [(2023, [])] [(2023, [])]
    ∧ LiquidityRatios.currentRatioCell Fix.bsNaNCL 20230331 = .nan
    ∧ LiquidityRatios.currentRatioCell Fix.bsZeroCL 20230331 = .pinf :=
  C1_denominator_policy [(2023, [])] [(2023, [])] 2023 0 Fix.bsNaNCL 20230331
    Fix.bsZeroCL 20230331 100 (Or.inl (by decide)) (by decide) (by decide)
    (by norm_num) (by decide)

/-- C2 (amended): each variant applies its own policy uniformly — in
efficiency_ratio.py all three rolling-average turnovers omit a year whose
previous-year balance row is absent, while in efficiency_ratios.py each
turnover column's first row falls back to the single current value as the
average — but the two variants' policies differ from each other. -/
theorem C2_fallback_policy_per_variant
    (inc bs : Stmt) (y : Nat) (q : ℚ) (r1 r2 : List (Nat × ℚ))
    (incf bsf : Frame) (numCol denCol : String) (d : Nat) (rest : List Nat)
    (hprev : stmtRow bs (y - 1) = [])
    (hr1 : EfficiencyRatio.asset_turnover_ratio inc bs = .ok r1)
    (hr2 : EfficiencyRatio.receivables_turnover_ratio inc bs = .ok r2)
    (hdates : bsf.dates = d :: rest)
    (hd : d ∈ incf.dates) :
    ((y, q) ∉ r1 ∧ (y, q) ∉ EfficiencyRatio.inventory_turnover_ratio inc bs
      ∧ (y, q) ∉ r2)
    ∧ (d, Pval.div (incf.val d numCol) (bsf.val d denCol))
        ∈ EfficiencyRatios.turnoverCol incf numCol bsf denCol := by
  refine ⟨⟨?_, ?_, ?_⟩, ?_⟩
  · intro hmem
    unfold EfficiencyRatio.asset_turnover_ratio at hr1
    rcases iterAppendE_ok_mem hr1 hmem with h | ⟨yr, hyr, e, hge, hpe⟩
    · simp at h
    · rcases hR : getNone (stmtRow inc yr.1) "Total Revenue" with _ | rv <;>
        rcases hT : getNone (stmtRow bs yr.1) "Total Assets" with _ | t <;>
        rcases hP : getNone (stmtRow bs (yr.1 - 1)) "Total Assets" with _ | pv <;>
        simp [EfficiencyRatio.assetEntry, hR, hT, hP] at hge <;>
        try (subst hge; simp at hpe)
      split at hge
      · cases hge
      · rw [Except.ok.injEq] at hge
        subst hge
        simp at hpe
        obtain ⟨hy, -⟩ := hpe
        subst hy
        rw [hprev] at hP
        simp [getNone, rowVal] at hP
  · intro hmem
    rw [EfficiencyRatio.inventory_turnover_ratio, mem_iterAppend] at hmem
    obtain ⟨yr, hyr, hin⟩ := hmem
    rcases hC : getNone (stmtRow inc yr.1) "Cost Of Revenue" with _ | g <;>
      simp [EfficiencyRatio.inventoryEntry, hC] at hin
    obtain ⟨⟨-, hprevpos⟩, hy, -⟩ := hin
    subst hy
    rw [hprev] at hprevpos
    simp [getOrZero, rowVal] at hprevpos
  · intro hmem
    unfold EfficiencyRatio.receivables_turnover_ratio at hr2
    rcases iterAppendE_ok_mem hr2 hmem with h | ⟨yr, hyr, e, hge, hpe⟩
    · simp at h
    · rcases hR : getNone (stmtRow inc yr.1) "Total Revenue" with _ | rv <;>
        rcases hT : getNone (stmtRow bs yr.1) "Accounts Receivable" with _ | t <;>
        rcases hP : getNone (stmtRow bs (yr.1 - 1)) "Accounts Receivable" with _ | pv <;>
        simp [EfficiencyRatio.receivablesEntry, hR, hT, hP] at hge <;>
        try (subst hge; simp at hpe)
      split at hge
      · cases hge
      · rw [Except.ok.injEq] at hge
        subst hge
        simp at hpe
        obtain ⟨hy, -⟩ := hpe
        subst hy
        rw [hprev] at hP
        simp [getNone, rowVal] at hP
  · have hlast : (EfficiencyRatios.avgSeries bsf denCol).lookup d
        = some (bsf.val d denCol) := by
      unfold EfficiencyRatios.avgSeries
      rw [hdates]
      simp [EfficiencyRatios.rollingMean2, List.lookup]
    unfold EfficiencyRatios.turnoverCol
    refine List.mem_map.mpr ⟨d, hd, ?_⟩
    simp [hdates, hlast]

/-- C2 witness. -/
theorem C2_fallback_policy_per_variant_witness :
    ((2023, (0 : ℚ)) ∉ ([] : List (Nat × ℚ))
      ∧ (2023, (0 : ℚ)) ∉ EfficiencyRatio.inventory_turnover_ratio Fix.incOneYear Fix.bsOneYear
      ∧ (2023, (0 : ℚ)) ∉ ([] : List (Nat × ℚ)))
    ∧ (20230331, Pval.div (Fix.incFOneYear.val 20230331 "Total Revenue")
        (Fix.bsFOneYear.val 20230331 "Total Assets"))
      ∈ EfficiencyRatios.turnoverCol Fix.incFOneYear "Total Revenue" Fix.bsFOneYear
        "Total Assets" :=
  C2_fallback_policy_per_variant Fix.incOneYear Fix.bsOneYear 2023 0 [] []
    Fix.incFOneYear Fix.bsFOneYear "Total Revenue" "Total Assets" 20230331 []
    (by decide) (by rfl) (by rfl) rfl (by decide)

/-- C4 (amended): an absent input line generally makes a ratio undefined, but
`quick_ratio` computes with a *missing* Inventory key coerced to 0 — the value
is (CurrentAssets − 0)/CurrentLiabilities — and the class inventory turnover
coerces missing Inventory keys to 0 and computes from the Other Inventories
amounts whenever the coerced sums are positive. -/
theorem C4_absent_inventory_coercion
    (y : Nat) (row : Row) (a c : ℚ) (inc bs : Stmt) (incRow : Row) (g oi op : ℚ)
    (hinv : rowVal row "Inventory" = .missing)
    (hca : getNone row "Current Assets" = some a)
    (hcl : getNone row "Current Liabilities" = some c)
    (hc : c ≠ 0)
    (hg : getNone (stmtRow inc y) "Cost Of Revenue" = some g)
    (hbsy : rowVal (stmtRow bs y) "Inventory" = .missing)
    (hbsyo : rowVal (stmtRow bs y) "Other Inventories" = .num oi)
    (hoi : 0 < oi)
    (hbsp : rowVal (stmtRow bs (y - 1)) "Inventory" = .missing)
    (hbspo : rowVal (stmtRow bs (y - 1)) "Other Inventories" = .num op)
    (hop : 0 < op) :
    LiquidityRatio.quick_ratio [(y, row)] = .ok [(y, (a - 0) / c)]
    ∧ EfficiencyRatio.inventoryEntry inc bs (y, incRow) = [(y, g / ((oi + op) / 2))] := by
  constructor
  · unfold LiquidityRatio.quick_ratio
    rw [if_neg (by simp)]
    simp [iterAppendE, LiquidityRatio.quickEntry, hca, hcl, hc, getZero, hinv]
  · simp [EfficiencyRatio.inventoryEntry, hg, getOrZero, hbsy, hbsyo, hbsp, hbspo,
      hoi, hop]

/-- C4 witness. -/
theorem C4_absent_inventory_coercion_witness :
    LiquidityRatio.quick_ratio
        [(2023, [("Current Assets", LineVal.num 100), ("Current Liabilities", LineVal.num 50)])]
      = .ok [(2023, ((100 : ℚ) - 0) / 50)]
    ∧ EfficiencyRatio.inventoryEntry Fix.incInv Fix.bsInv (2023, [])
      = [(2023, (80 : ℚ) / (((10 : ℚ) + 10) / 2))] :=
  C4_absent_inventory_coercion 2023
    [("Current Assets", LineVal.num 100), ("Current Liabilities", LineVal.num 50)]
    100 50 Fix.incInv Fix.bsInv [] 80 10 10
    (by decide) (by decide) (by decide) (by norm_num) (by decide) (by decide)
    (by decide) (by norm_num) (by decide) (by decide) (by norm_num)

/-- In a list whose keys are pairwise ≤-ordered, every member's key is at most
the last element's key. -/
theorem pairwise_le_getLast {l : List (Nat × Pval)}
    (hp : l.Pairwise (fun p q : Nat × Pval => p.1 ≤ q.1)) {x : Nat × Pval}
    (hx : l.getLast? = some x) {z : Nat × Pval} (hz : z ∈ l) : z.1 ≤ x.1 := by
  induction l with
  | nil => cases hz
  | cons a tail ih =>
    cases tail with
    | nil =>
      simp at hx hz
      subst hx; subst hz
      exact le_rfl
    | cons b t2 =>
      rw [List.getLast?_cons_cons] at hx
      rcases List.mem_cons.mp hz with rfl | hz2
      · have hxmem : x ∈ b :: t2 := List.mem_of_mem_getLast? hx
        exact (List.pairwise_cons.mp hp).1 x hxmem
      · exact ih (List.pairwise_cons.mp hp).2 hx hz2

/-- `priceMapGo` aborts with IndexError when some statement date has no price
point at or before it. -/
theorem priceMapGo_error (stock : List (Nat × Pval)) :
    ∀ (dates : List Nat) (acc : List (Nat × Pval)),
    (∃ dt ∈ dates, stock.filter (fun p => p.1 ≤ dt) = []) →
    ValuationRatios.priceMapGo stock dates acc = .error "IndexError" := by
  intro dates
  induction dates with
  | nil => intro acc h; simp at h
  | cons d0 rest ih =>
    rintro acc ⟨dt, hdt, hemp⟩
    rcases List.mem_cons.mp hdt with rfl | hdt2
    · have hcl : ValuationRatios.closestPrice stock dt = .error "IndexError" := by
        unfold ValuationRatios.closestPrice
        rw [hemp]
        rfl
      simp [ValuationRatios.priceMapGo, hcl]
    · cases hc : ValuationRatios.closestPrice stock d0 with
      | ok p =>
        simp [ValuationRatios.priceMapGo, hc]
        exact ih _ ⟨dt, hdt2, hemp⟩
      | error s =>
        have hs : s = "IndexError" := by
          unfold ValuationRatios.closestPrice at hc
          rcases h2 : (stock.filter (fun p => p.1 ≤ d0)).getLast? with _ | pr <;>
            rw [h2] at hc <;> simp at hc
          exact hc.symm
        subst hs
        simp [ValuationRatios.priceMapGo, hc]

/-- C5 (amended): for a chronologically ordered price series, the price used
for a fiscal date is the latest price point dated at or before it; but if any
fiscal date in the statement index has no price point at or before it,
`calculate_valuation_ratios` raises IndexError and produces no ratios for any
period (later periods with a suitable price included). -/
theorem C5_price_matching_policy
    (stock : List (Nat × Pval)) (v : Pval) (dt : Nat)
    (inc bs : Frame) (sh ev : Option ℚ) (dt2 : Nat)
    (hsorted : stock.Pairwise (fun p q : Nat × Pval => p.1 ≤ q.1))
    (hok : ValuationRatios.closestPrice stock dt = .ok v)
    (hmiss : dt2 ∈ inc.dates)
    (hempty : stock.filter (fun p => p.1 ≤ dt2) = []) :
    (∃ t, (t, v) ∈ stock ∧ t ≤ dt ∧ ∀ p ∈ stock, p.1 ≤ dt → p.1 ≤ t)
    ∧ ValuationRatios.calculate_valuation_ratios inc bs stock sh ev
        = .error "IndexError" := by
  constructor
  · unfold ValuationRatios.closestPrice at hok
    rcases hL : (stock.filter (fun p => p.1 ≤ dt)).getLast? with _ | pr <;>
      rw [hL] at hok <;> simp at hok
    subst hok
    have hmemf : pr ∈ stock.filter (fun p => p.1 ≤ dt) := List.mem_of_mem_getLast? hL
    have hmem : pr ∈ stock := List.mem_of_mem_filter hmemf
    have hle : pr.1 ≤ dt := by
      have := List.of_mem_filter hmemf
      simpa using this
    refine ⟨pr.1, by simpa using hmem, hle, ?_⟩
    intro p hp hple
    have hpf : p ∈ stock.filter (fun p => p.1 ≤ dt) :=
      List.mem_filter.mpr ⟨hp, by simpa using hple⟩
    exact pairwise_le_getLast (hsorted.filter _) hL hpf
  · have hpm : ValuationRatios.priceMap stock inc.dates = .error "IndexError" :=
      priceMapGo_error stock inc.dates [] ⟨dt2, hmiss, hempty⟩
    unfold ValuationRatios.calculate_valuation_ratios
    simp [hpm, bind, Except.bind]

/-- C5 witness. -/
theorem C5_price_matching_policy_witness :
    (∃ t, (t, Pval.num 60) ∈ Fix.stockScenE ∧ t ≤ 20200331
      ∧ ∀ p ∈ Fix.stockScenE, p.1 ≤ 20200331 → p.1 ≤ t)
    ∧ ValuationRatios.calculate_valuation_ratios Fix.incScenE Fix.bsEmpty Fix.stockScenE
        (some 5) none = .error "IndexError" :=
  C5_price_matching_policy Fix.stockScenE (Pval.num 60) 20200331 Fix.incScenE
    Fix.bsEmpty (some 5) none 20190331 (by decide) (by rfl) (by decide) (by decide)

/-- `benchLoop` propagates the first failing peer fetch. -/
theorem benchLoop_error (env : String → Except String ProfitMain.FetchedData)
    (e : String) :
    ∀ (pre : List String) (b : String) (post : List String)
    (acc : List (String × List (String × List (Nat × Pval)))),
    (∀ x ∈ pre, ∃ dx, env x = .ok dx) → env b = .error e →
    ProfitMain.benchLoop env (pre ++ b :: post) acc = .error e := by
  intro pre
  induction pre with
  | nil =>
    intro b post acc _ hb
    simp [ProfitMain.benchLoop, hb]
  | cons x pre2 ih =>
    intro b post acc hpre hb
    obtain ⟨dx, hdx⟩ := hpre x (by simp)
    simp only [List.cons_append, ProfitMain.benchLoop, hdx]
    exact ih b post _ (fun x2 hx2 => hpre x2 (by simp [hx2])) hb

/-- `benchLoop` completes when every peer fetch succeeds. -/
theorem benchLoop_ok (env : String → Except String ProfitMain.FetchedData) :
    ∀ (bs : List String) (acc : List (String × List (String × List (Nat × Pval)))),
    (∀ x ∈ bs, ∃ dx, env x = .ok dx) →
    ∃ res, ProfitMain.benchLoop env bs acc = .ok res := by
  intro bs
  induction bs with
  | nil => intro acc _; exact ⟨acc, rfl⟩
  | cons x rest ih =>
    intro acc hok
    obtain ⟨dx, hdx⟩ := hok x (by simp)
    simp only [ProfitMain.benchLoop, hdx]
    exact ih _ (fun x2 hx2 => hok x2 (by simp [hx2]))

/-- C6 (amended): a failing peer (benchmark) fetch aborts the whole `main` run
with that exception — later peers and the comparison output are not produced —
whereas a failing *market-index* fetch alone is caught and merely leaves the
market column empty while the run completes. -/
theorem C6_failure_isolation
    (env : String → Except String ProfitMain.FetchedData) (t b mi2 : String)
    (d0 : ProfitMain.FetchedData) (pre post bs : List String)
    (mi : Option String) (e e2 : String)
    (h1 : env t = .ok d0)
    (hpre : ∀ x ∈ pre, ∃ dx, env x = .ok dx)
    (hb : env b = .error e)
    (hbs : ∀ x ∈ bs, ∃ dx, env x = .ok dx)
    (hmi : env mi2 = .error e2) :
    ProfitMain.main env t (pre ++ b :: post) mi = .error e
    ∧ ∃ out, ProfitMain.main env t bs (some mi2) = .ok out ∧ out.market = none := by
  constructor
  · have hbl := benchLoop_error env e pre b post [] hpre hb
    simp [ProfitMain.main, h1, hbl, bind, Except.bind]
  · obtain ⟨res, hres⟩ := benchLoop_ok env bs [] hbs
    refine ⟨⟨ProfitabilityRatios.calculate_profitability_ratios d0.income d0.balance d0.trailingEPS, res, none⟩, ?_, rfl⟩
    simp [ProfitMain.main, h1, hres, hmi, bind, Except.bind, pure, Except.pure]

/-- C6 witness. -/
theorem C6_failure_isolation_witness :
    ProfitMain.main Fix.envXYZfails "PRIM" ["XYZ", "ABC"] (some "IDX")
      = .error "EntityFetchFailure"
    ∧ ∃ out, ProfitMain.main Fix.envXYZfails "PRIM" ["ABC"] (some "XYZ") = .ok out
        ∧ out.market = none :=
  C6_failure_isolation Fix.envXYZfails "PRIM" "XYZ" "XYZ" Fix.emptyData
    [] ["ABC"] ["ABC"] (some "IDX") "EntityFetchFailure" "EntityFetchFailure"
    (by rfl) (by simp) (by rfl)
    (by intro x hx
        rw [List.mem_singleton] at hx
        subst hx
        exact ⟨Fix.emptyData, rfl⟩)
    (by rfl)

/-- C7 (amended): the script ROCE column is Operating Income over
(Total Assets − Total Current Liabilities) times 100 whenever the three
columns exist, with *no* sign check on the denominator (any nonzero capital
employed — negative included — yields a defined value); the class variant
divides EBIT by Total Assets alone. -/
theorem C7_roce_formula
    (incf bsf : Frame) (eps : Option ℚ) (d : Nat) (o a c : ℚ)
    (incS bsS : Stmt) (y : Nat) (row : Row) (e t : ℚ)
    (hOI : "Operating Income" ∈ incf.cols) (hTA : "Total Assets" ∈ bsf.cols)
    (hTCL : "Total Current Liabilities" ∈ bsf.cols)
    (hvo : incf.val d "Operating Income" = .num o)
    (hva : bsf.val d "Total Assets" = .num a)
    (hvc : bsf.val d "Total Current Liabilities" = .num c)
    (hne : a - c ≠ 0)
    (hmem : (y, row) ∈ incS) (hbs : bsS ≠ [])
    (he : getNone (stmtRow incS y) "EBIT" = some e)
    (ht : getNone (stmtRow bsS y) "Total Assets" = some t) (htne : t ≠ 0) :
    ("Return on Capital Employed (%)",
        incf.dates.map (fun d2 => (d2, ProfitabilityRatios.roceCell incf bsf d2)))
      ∈ ProfitabilityRatios.calculate_profitability_ratios incf bsf eps
    ∧ ProfitabilityRatios.roceCell incf bsf d = .num (o / (a - c) * 100)
    ∧ (y, e / t * 100) ∈ NewProfitable.return_on_capital_employed incS bsS := by
  refine ⟨?_, ?_, ?_⟩
  · unfold ProfitabilityRatios.calculate_profitability_ratios
    refine List.mem_append_left _ (List.mem_append_right _ ?_)
    rw [if_pos ⟨hOI, hTA, hTCL⟩]
    exact List.mem_singleton.mpr rfl
  · unfold ProfitabilityRatios.roceCell
    rw [hvo, hva, hvc]
    simp [Pval.sub, Pval.div, Pval.mul, hne]
  · unfold NewProfitable.return_on_capital_employed
    rw [if_neg (by simp [List.ne_nil_of_mem hmem, hbs])]
    rw [mem_iterAppend]
    exact ⟨(y, row), hmem, by simp [NewProfitable.roceEntry, he, ht, htne]⟩

/-- C7 witness. -/
theorem C7_roce_formula_witness :
    ("Return on Capital Employed (%)",
        Fix.incRoce.dates.map (fun d2 => (d2, ProfitabilityRatios.roceCell Fix.incRoce Fix.bsRoce d2)))
      ∈ ProfitabilityRatios.calculate_profitability_ratios Fix.incRoce Fix.bsRoce none
    ∧ ProfitabilityRatios.roceCell Fix.incRoce Fix.bsRoce 20230331
      = .num ((50 : ℚ) / (100 - 150) * 100)
    ∧ (2023, (50 : ℚ) / 100 * 100)
      ∈ NewProfitable.return_on_capital_employed Fix.incRoceS Fix.bsRoceS :=
  C7_roce_formula Fix.incRoce Fix.bsRoce none 20230331 50 100 150
    Fix.incRoceS Fix.bsRoceS 2023 [("EBIT", LineVal.num 50)] 50 100
    (by decide) (by decide) (by decide) (by decide) (by decide) (by decide)
    (by norm_num) (by decide) (by decide) (by decide) (by decide) (by norm_num)

/-- C8 (amended): the script interest coverage divides Operating Income by the
absolute value of Interest Expense, as the claim states; the class variant
divides EBIT by the *signed* Interest Expense, so a negatively-signed expense
yields a sign-flipped result there. -/
theorem C8_interest_coverage_formula
    (incf bsf : Frame) (d : Nat) (o i : ℚ) (incS : Stmt) (y : Nat) (row : Row)
    (e i2 : ℚ)
    (hOI : "Operating Income" ∈ incf.cols) (hIE : "Interest Expense" ∈ incf.cols)
    (hvo : incf.val d "Operating Income" = .num o)
    (hvi : incf.val d "Interest Expense" = .num i) (hi : i ≠ 0)
    (hmem : (y, row) ∈ incS)
    (he : getNone (stmtRow incS y) "EBIT" = some e)
    (hi2 : getNone (stmtRow incS y) "Interest Expense" = some i2) (hi2ne : i2 ≠ 0) :
    ("Interest Coverage Ratio",
        bsf.dates.map (fun d2 => (d2, SolvencyRatios.icrCell incf d2)))
      ∈ SolvencyRatios.calculate_solvency_ratios incf bsf
    ∧ SolvencyRatios.icrCell incf d = .num (o / |i|)
    ∧ (y, e / i2) ∈ SolvencyRatio.interest_coverage_ratio incS := by
  refine ⟨?_, ?_, ?_⟩
  · unfold SolvencyRatios.calculate_solvency_ratios
    refine List.mem_append_left _ (List.mem_append_right _ ?_)
    rw [if_pos ⟨hOI, hIE⟩]
    exact List.mem_singleton.mpr rfl
  · unfold SolvencyRatios.icrCell
    rw [hvo, hvi]
    simp [Pval.pabs, Pval.div, abs_ne_zero.mpr hi]
  · unfold SolvencyRatio.interest_coverage_ratio
    rw [if_neg (by simp [List.ne_nil_of_mem hmem])]
    rw [mem_iterAppend]
    exact ⟨(y, row), hmem, by simp [SolvencyRatio.icrEntry, he, hi2, hi2ne]⟩

/-- C8 witness. -/
theorem C8_interest_coverage_formula_witness :
    ("Interest Coverage Ratio",
        Fix.bsEmpty.dates.map (fun d2 => (d2, SolvencyRatios.icrCell Fix.incIcrF d2)))
      ∈ SolvencyRatios.calculate_solvency_ratios Fix.incIcrF Fix.bsEmpty
    ∧ SolvencyRatios.icrCell Fix.incIcrF 20230331 = .num ((50 : ℚ) / |(-10 : ℚ)|)
    ∧ (2023, (50 : ℚ) / (-10)) ∈ SolvencyRatio.interest_coverage_ratio Fix.incIcr :=
  C8_interest_coverage_formula Fix.incIcrF Fix.bsEmpty 20230331 50 (-10)
    Fix.incIcr 2023
    [("EBIT", LineVal.num 50), ("Interest Expense", LineVal.num (-10))] 50 (-10)
    (by decide) (by decide) (by decide) (by decide) (by norm_num) (by decide)
    (by decide) (by decide) (by norm_num)

/-- C9 (amended): the valuation computation hands back the fetched income
statement and balance sheet extended in place by the derived EPS and Book
Value Per Share columns, and the market-performance computation replaces the
dividend history's index by a timezone-stripped copy; these are the mutations
of the fetched data the code performs. -/
theorem C9_mutation_profile
    (inc bs : Frame) (stock : List (Nat × Pval)) (s : ℚ) (ev : Option ℚ)
    (out : ValuationRatios.ValOutput) (divs : List MarketPerformanceRatios.DivEntry)
    (hNI : "Net Income" ∈ inc.cols) (hTSE : "Total Stockholder Equity" ∈ bs.cols)
    (hs : s ≠ 0)
    (hok : ValuationRatios.calculate_valuation_ratios inc bs stock (some s) ev
      = .ok out) :
    out.income_out = inc.addCol "EPS"
      (fun d => Pval.div (inc.val d "Net Income") (Pval.num s))
    ∧ out.balance_out = bs.addCol "Book Value Per Share"
      (fun d => Pval.div (bs.val d "Total Stockholder Equity") (Pval.num s))
    ∧ (MarketPerformanceRatios.calculate_market_performance_ratios stock divs).dividends_out
      = MarketPerformanceRatios.stripTz divs := by
  unfold ValuationRatios.calculate_valuation_ratios at hok
  cases hpm : ValuationRatios.priceMap stock inc.dates with
  | error s2 => simp [hpm, bind, Except.bind] at hok
  | ok prices =>
    simp only [hpm, bind, Except.bind, hNI, hTSE, if_true, hs, ne_eq,
      not_false_eq_true, if_pos, pure, Except.pure, Except.ok.injEq] at hok
    subst hok
    exact ⟨rfl, rfl, rfl⟩

/-- C9 witness. -/
theorem C9_mutation_profile_witness :
    Fix.valOutFull.income_out = Fix.incVal.addCol "EPS"
      (fun d => Pval.div (Fix.incVal.val d "Net Income") (Pval.num 5))
    ∧ Fix.valOutFull.balance_out = Fix.bsVal.addCol "Book Value Per Share"
      (fun d => Pval.div (Fix.bsVal.val d "Total Stockholder Equity") (Pval.num 5))
    ∧ (MarketPerformanceRatios.calculate_market_performance_ratios Fix.stockVal []).dividends_out
      = MarketPerformanceRatios.stripTz [] :=
  C9_mutation_profile Fix.incVal Fix.bsVal Fix.stockVal 5 none Fix.valOutFull []
    (by decide) (by decide) (by norm_num)
    (by simp [ValuationRatios.calculate_valuation_ratios, ValuationRatios.priceMap,
      ValuationRatios.priceMapGo, ValuationRatios.closestPrice, Frame.addCol,
      Frame.val, Fix.incVal, Fix.bsVal, Fix.stockVal, Fix.valOutFull, Pval.div,
      Pval.ofOpt, List.lookup, List.filter, bind, Except.bind, pure, Except.pure] <;>
      norm_num)

/-- Stripping timezones does not change the per-year dividend sum (dates and
amounts are untouched). -/
theorem annualDividend_stripTz (divs : List MarketPerformanceRatios.DivEntry)
    (y : Nat) :
    MarketPerformanceRatios.annualDividend (MarketPerformanceRatios.stripTz divs) y
      = MarketPerformanceRatios.annualDividend divs y := by
  unfold MarketPerformanceRatios.annualDividend MarketPerformanceRatios.stripTz
  induction divs with
  | nil => rfl
  | cons d rest ih =>
    by_cases h1 : MarketPerformanceRatios.yearStart y ≤ d.date
    · by_cases h2 : d.date ≤ MarketPerformanceRatios.yearEnd y
      · simp [List.filter_cons, h1, h2]
        simpa using ih
      · simp [List.filter_cons, h1, h2]
        simpa using ih
    · simp [List.filter_cons, h1]
      simpa using ih

/-- C10: for every resampled yearly period whose calendar-year dividend sum is
zero (in particular when the dividend history is empty), the Dividend Yield
cell reported for that period is the value 0, not an undefined cell. -/
theorem C10_zero_dividend_sum_reports_zero
    (stock : List (Nat × Pval)) (divs : List MarketPerformanceRatios.DivEntry)
    (p : Nat × Pval)
    (hp : p ∈ MarketPerformanceRatios.resampleYE stock)
    (hz : MarketPerformanceRatios.annualDividend divs
      (MarketPerformanceRatios.yearOf p.1) = 0) :
    (p.1, Pval.num 0)
      ∈ (MarketPerformanceRatios.calculate_market_performance_ratios stock divs).dividendYield := by
  unfold MarketPerformanceRatios.calculate_market_performance_ratios
    MarketPerformanceRatios.dividendYieldCol
  refine List.mem_map.mpr ⟨p, hp, ?_⟩
  rw [annualDividend_stripTz, hz]
  simp

/-- C10 witness. -/
theorem C10_zero_dividend_sum_reports_zero_witness :
    (20231231, Pval.num 0)
      ∈ (MarketPerformanceRatios.calculate_market_performance_ratios Fix.stockDy []).dividendYield :=
  C10_zero_dividend_sum_reports_zero Fix.stockDy [] (20231231, Pval.num 50)
    (by decide) (by rfl)

end FinAnalyst
